import Mathlib

/-!
Shallow embedding of the task-management API (FastAPI + SQLAlchemy, files
`routers/user.py`, `routers/task.py`, `backend/db.py`, `schemas/user.py`,
`schemas/task.py`, `models/user.py`, `models/task.py`).

The relational store is modelled as in-memory lists of records with
auto-assigned integer ids.  Each request handler becomes a pure function
from the store state (plus the request data) to a response, paired with the
new store state for the mutating handlers.

Python exception flow is embedded explicitly: the body of each handler's
`try` block is a `Except HandlerExc` computation, and the surrounding
`except` clauses are a match on its result.  FastAPI's `HTTPException`
subclasses `Exception`, so a generic `except Exception` clause catches the
`HTTPException(404)` raised inside the `try` block; only handlers with a
dedicated `except HTTPException: raise` clause let the 404 escape.
-/

namespace TaskApp

/-- A row of the `users` table (`models/user.py`): id (auto primary key),
username, firstname, lastname, age, slug. -/
structure User where
  id : Nat
  username : String
  firstname : String
  lastname : String
  age : Int
  slug : String
deriving Repr, DecidableEq

/-- A row of the `tasks` table (`models/task.py`): id (auto primary key),
title, content, priority, user_id (foreign key to users). -/
structure Task where
  id : Nat
  title : String
  content : String
  priority : Int
  user_id : Nat
deriving Repr, DecidableEq

/-- The relational store: the two tables, plus the auto-increment counters
that assign fresh primary keys on insert. -/
structure DB where
  users : List User
  tasks : List Task
  nextUserId : Nat
  nextTaskId : Nat
deriving Repr, DecidableEq

/-- Request body of `POST /user/create` (`schemas/user.py`, `CreateUser`):
username, firstname, lastname, age and a required `slug` field. -/
structure CreateUser where
  username : String
  firstname : String
  lastname : String
  age : Int
  slug : String
deriving Repr, DecidableEq

/-- Request body of `PUT /user/update/{user_id}` (`schemas/user.py`,
`UpdateUser`): firstname, lastname, age. -/
structure UpdateUser where
  firstname : String
  lastname : String
  age : Int
deriving Repr, DecidableEq

/-- Request body of `POST /task/create` (`schemas/task.py`, `CreateTask`). -/
structure CreateTask where
  title : String
  content : String
  priority : Int
  user_id : Nat
deriving Repr, DecidableEq

/-- Request body of `PUT /task/update/{task_id}` (`schemas/task.py`,
`UpdateTask`). -/
structure UpdateTask where
  title : String
  content : String
  priority : Int
deriving Repr, DecidableEq

/-- An exception escaping a handler's `try` block.  The only exceptions the
embedded handlers themselves raise are `fastapi.HTTPException`s, carrying a
status code and a human-readable detail string. -/
inductive HandlerExc where
  | httpExc (statusCode : Nat) (detail : String)
deriving Repr, DecidableEq

/-- The response the HTTP caller observes.  `ok httpStatus body` is a normal
return: `httpStatus` is the status code declared on the route decorator
(none of the routes in `routers/user.py` / `routers/task.py` passes a
`status_code=` argument, so FastAPI's default 200 applies to every
successful return).  `err httpStatus detail` is an `HTTPException`
propagating out of the handler, rendered with its own status code. -/
inductive Response (α : Type) where
  | ok (httpStatus : Nat) (body : α)
  | err (httpStatus : Nat) (detail : String)
deriving Repr, DecidableEq

/-- The HTTP status code the caller sees on the wire. -/
def Response.httpStatusOf : Response α → Nat
  | .ok s _ => s
  | .err s _ => s

/-- The `{'status_code': ..., 'transaction': ...}` confirmation dictionary
returned by the create/update/delete handlers. -/
structure Confirmation where
  status_code : Nat
  transaction : String
deriving Repr, DecidableEq

/-- `result.scalar()` after `select(T).where(T.id == x)`: the first matching
row, or `None`. -/
def DB.findUser (db : DB) (uid : Nat) : Option User :=
  db.users.find? (fun u => u.id == uid)

/-- `result.scalar()` after `select(Task).where(Task.id == x)`. -/
def DB.findTask (db : DB) (tid : Nat) : Option Task :=
  db.tasks.find? (fun t => t.id == tid)

/-! ### `slugify`

Modelled from the spec: the third-party `slugify` normalization used by
`routers/user.py` is not part of this repository; the spec describes it as
"lowercase, ASCII-transliterated, hyphenated".  Alphanumeric characters are
lowercased and kept, every other run of characters becomes a single hyphen,
and leading/trailing hyphens are dropped. -/

/-- Character groups of a string: maximal runs of alphanumeric characters
(lowercased), split at every other character. -/
def slugGroups : List Char → List (List Char)
  | [] => [[]]
  | c :: cs =>
    let gs := slugGroups cs
    if c.isAlphanum then
      match gs with
      | [] => [[c.toLower]]
      | g :: rest => (c.toLower :: g) :: rest
    else
      [] :: gs

/-- Join character groups with single hyphens. -/
def hyphenate : List (List Char) → List Char
  | [] => []
  | [w] => w
  | w :: ws => w ++ '-' :: hyphenate ws

/-- Modelled from the spec: `slugify` from the python-slugify library
(lowercase, ASCII-transliterated, hyphenated).  The string is lowercased,
split at every non-alphanumeric character, and the non-empty pieces are
re-joined with single hyphens. -/
def slugify (s : String) : String :=
  String.mk (hyphenate ((slugGroups s.data).filter (fun g => ¬ g.isEmpty)))

/-! ### User router (`routers/user.py`) -/

/-- `try` body of `all_users` (GET `/user/`): select all users; if the list
is empty raise `HTTPException(404, 'There are no users')`; otherwise return
the list of user dictionaries. -/
def all_users_try (db : DB) : Except HandlerExc (List User) :=
  let users := db.users
  if users.isEmpty then
    .error (.httpExc 404 "There are no users")
  else
    .ok users

/-- `all_users` handler: the `try` body wrapped in `except Exception`, which
catches every exception — including the `HTTPException(404)` raised inside
the `try` — and raises `HTTPException(500, "Internal Server Error")`. -/
def all_users (db : DB) : Response (List User) :=
  match all_users_try db with
  | .ok body => .ok 200 body
  | .error _ => .err 500 "Internal Server Error"

/-- `try` body of `user_by_id` (GET `/user/{user_id}`): select the user;
if `None`, raise `HTTPException(404, 'User not found')`; else return its
dictionary. -/
def user_by_id_try (db : DB) (uid : Nat) : Except HandlerExc User :=
  match db.findUser uid with
  | none => .error (.httpExc 404 "User not found")
  | some u => .ok u

/-- `user_by_id` handler: `try` body wrapped in a generic `except Exception`
clause that converts every exception (the 404 included) into
`HTTPException(500, "Internal Server Error")`. -/
def user_by_id (db : DB) (uid : Nat) : Response User :=
  match user_by_id_try db uid with
  | .ok body => .ok 200 body
  | .error _ => .err 500 "Internal Server Error"

/-- The row inserted by `create_user`: every field from the request body
except `slug`, whose stored value is `slugify(create_user.firstname)`; the
id is auto-assigned by the store. -/
def insertedUser (db : DB) (cu : CreateUser) : User :=
  { id := db.nextUserId
    username := cu.username
    firstname := cu.firstname
    lastname := cu.lastname
    age := cu.age
    slug := slugify cu.firstname }

/-- `create_user` handler (POST `/user/create`): insert the new row, commit,
and return `{'status_code': 201, 'transaction': 'Successful'}`.  The route
declares no `status_code`, so the HTTP status of the successful response is
FastAPI's default 200; the 201 only appears inside the body. -/
def create_user (db : DB) (cu : CreateUser) : Response Confirmation × DB :=
  let db' : DB :=
    { db with users := db.users ++ [insertedUser db cu], nextUserId := db.nextUserId + 1 }
  (.ok 200 ⟨201, "Successful"⟩, db')

/-- The field update applied by `update_user`'s `update(User).values(...)`:
firstname, lastname, age from the body, slug recomputed from the new
firstname; id and username untouched. -/
def applyUserUpdate (um : UpdateUser) (u : User) : User :=
  { u with firstname := um.firstname
           lastname := um.lastname
           age := um.age
           slug := slugify um.firstname }

/-- `try` body of `update_user` (PUT `/user/update/{user_id}`): select the
user, raise `HTTPException(404, 'User not found')` if absent, else run the
UPDATE over every row with that id, commit, and return the confirmation. -/
def update_user_try (db : DB) (uid : Nat) (um : UpdateUser) :
    Except HandlerExc (Confirmation × DB) :=
  match db.findUser uid with
  | none => .error (.httpExc 404 "User not found")
  | some _ =>
    let users' := db.users.map (fun u => if u.id == uid then applyUserUpdate um u else u)
    let db' : DB := { db with users := users' }
    .ok (⟨200, "User update is successful"⟩, db')

/-- `update_user` handler: generic `except Exception` clause — the 404 is
caught, `rollback()` runs (a no-op, nothing was written on that path) and
`HTTPException(500)` is raised instead. -/
def update_user (db : DB) (uid : Nat) (um : UpdateUser) :
    Response Confirmation × DB :=
  match update_user_try db uid um with
  | .ok (body, db') => (.ok 200 body, db')
  | .error _ => (.err 500 "Internal Server Error", db)

/-- `try` body of `delete_user` (DELETE `/user/delete/{user_id}`): select
the user, raise `HTTPException(404, 'User not found')` if absent, else
delete every task whose `user_id` equals the id, then delete the user,
commit, and return the confirmation. -/
def delete_user_try (db : DB) (uid : Nat) :
    Except HandlerExc (Confirmation × DB) :=
  match db.findUser uid with
  | none => .error (.httpExc 404 "User not found")
  | some _ =>
    let tasks' := db.tasks.filter (fun t => ¬ t.user_id == uid)
    let users' := db.users.filter (fun u => ¬ u.id == uid)
    let db' : DB := { db with tasks := tasks', users := users' }
    .ok (⟨200, "User and associated tasks delete is successful"⟩, db')

/-- `delete_user` handler: generic `except Exception` clause converts every
exception (the 404 included) to `HTTPException(500)` after rollback. -/
def delete_user (db : DB) (uid : Nat) : Response Confirmation × DB :=
  match delete_user_try db uid with
  | .ok (body, db') => (.ok 200 body, db')
  | .error _ => (.err 500 "Internal Server Error", db)

/-! ### Task router (`routers/task.py`) -/

/-- `try` body of `all_tasks` (GET `/task/`): select all tasks; raise
`HTTPException(404, 'There are no tasks')` when the list is empty. -/
def all_tasks_try (db : DB) : Except HandlerExc (List Task) :=
  let tasks := db.tasks
  if tasks.isEmpty then
    .error (.httpExc 404 "There are no tasks")
  else
    .ok tasks

/-- `all_tasks` handler: generic `except Exception` clause converts the 404
raised inside the `try` into `HTTPException(500)`. -/
def all_tasks (db : DB) : Response (List Task) :=
  match all_tasks_try db with
  | .ok body => .ok 200 body
  | .error _ => .err 500 "Internal Server Error"

/-- The row inserted by `create_task`: title, content, priority, user_id
from the body; the id is auto-assigned by the store. -/
def insertedTask (db : DB) (ct : CreateTask) : Task :=
  { id := db.nextTaskId
    title := ct.title
    content := ct.content
    priority := ct.priority
    user_id := ct.user_id }

/-- `try` body of `create_task` (POST `/task/create`): check the owning user
exists (raise `HTTPException(404, 'User was not found')` otherwise), insert
the task, commit, return `{'status_code': 201, 'transaction': 'Successful'}`. -/
def create_task_try (db : DB) (ct : CreateTask) :
    Except HandlerExc (Confirmation × DB) :=
  match db.findUser ct.user_id with
  | none => .error (.httpExc 404 "User was not found")
  | some _ =>
    let db' : DB :=
      { db with tasks := db.tasks ++ [insertedTask db ct], nextTaskId := db.nextTaskId + 1 }
    .ok (⟨201, "Successful"⟩, db')

/-- `create_task` handler: unlike the other handlers it has a dedicated
`except HTTPException as he: raise he` clause before the generic
`except Exception`, so the 404 escapes with its own status and detail.
The route declares no `status_code`, so the successful response's HTTP
status is FastAPI's default 200 and the 201 only appears in the body. -/
def create_task (db : DB) (ct : CreateTask) : Response Confirmation × DB :=
  match create_task_try db ct with
  | .ok (body, db') => (.ok 200 body, db')
  | .error (.httpExc s d) => (.err s d, db)

/-- `try` body of `task_by_id` (GET `/task/{task_id}`): select the task;
raise `HTTPException(404, 'Task not found')` when absent. -/
def task_by_id_try (db : DB) (tid : Nat) : Except HandlerExc Task :=
  match db.findTask tid with
  | none => .error (.httpExc 404 "Task not found")
  | some t => .ok t

/-- `task_by_id` handler: generic `except Exception` clause converts every
exception (the 404 included) into `HTTPException(500)`. -/
def task_by_id (db : DB) (tid : Nat) : Response Task :=
  match task_by_id_try db tid with
  | .ok body => .ok 200 body
  | .error _ => .err 500 "Internal Server Error"

/-- The field update applied by `update_task`'s `update(Task).values(...)`:
title, content, priority from the body; id and user_id untouched. -/
def applyTaskUpdate (ut : UpdateTask) (t : Task) : Task :=
  { t with title := ut.title
           content := ut.content
           priority := ut.priority }

/-- `try` body of `update_task` (PUT `/task/update/{task_id}`): select the
task, raise `HTTPException(404, 'Task not found')` if absent, else run the
UPDATE over every row with that id, commit, return the confirmation. -/
def update_task_try (db : DB) (tid : Nat) (ut : UpdateTask) :
    Except HandlerExc (Confirmation × DB) :=
  match db.findTask tid with
  | none => .error (.httpExc 404 "Task not found")
  | some _ =>
    let tasks' := db.tasks.map (fun t => if t.id == tid then applyTaskUpdate ut t else t)
    let db' : DB := { db with tasks := tasks' }
    .ok (⟨200, "Task update is successful"⟩, db')

/-- `update_task` handler: generic `except Exception` clause converts every
exception (the 404 included) into `HTTPException(500)` after rollback. -/
def update_task (db : DB) (tid : Nat) (ut : UpdateTask) :
    Response Confirmation × DB :=
  match update_task_try db tid ut with
  | .ok (body, db') => (.ok 200 body, db')
  | .error _ => (.err 500 "Internal Server Error", db)

/-- `try` body of `delete_task` (DELETE `/task/delete/{task_id}`). -/
def delete_task_try (db : DB) (tid : Nat) :
    Except HandlerExc (Confirmation × DB) :=
  match db.findTask tid with
  | none => .error (.httpExc 404 "Task not found")
  | some _ =>
    let tasks' := db.tasks.filter (fun t => ¬ t.id == tid)
    let db' : DB := { db with tasks := tasks' }
    .ok (⟨200, "Task delete is successful"⟩, db')

/-- `delete_task` handler: generic `except Exception` clause converts every
exception (the 404 included) into `HTTPException(500)` after rollback. -/
def delete_task (db : DB) (tid : Nat) : Response Confirmation × DB :=
  match delete_task_try db tid with
  | .ok (body, db') => (.ok 200 body, db')
  | .error _ => (.err 500 "Internal Server Error", db)

/-- The empty store. -/
def emptyDB : DB := ⟨[], [], 1, 1⟩

/-! ### Unique-value generation (`backend/db.py`)

`uuid.uuid4().hex[:8]` draws a fresh random uuid and keeps the first eight
hex characters.  Randomness is embedded as an explicit stream of natural
number seeds; `uuidHex8` renders a seed as eight lowercase hex digits, and
the unbounded `while True` loop becomes structural recursion over the seed
stream (`none` models the loop not terminating within the supplied draws). -/

/-- One lowercase hexadecimal digit, as `uuid4().hex` produces. -/
def hexDigitChar (k : Nat) : Char :=
  if k < 10 then Char.ofNat (48 + k) else Char.ofNat (87 + k)

/-- Eight lowercase hex characters derived from a random seed — the shape of
`uuid.uuid4().hex[:8]`. -/
def uuidHex8 (n : Nat) : String :=
  String.mk ((List.range 8).map (fun i => hexDigitChar (n / 16 ^ i % 16)))

/-- The `counter > 1` iterations of the generation loop: draw a fresh random
suffix, build `f"{base}-{suffix}"`, return it if no record holds it, retry
otherwise. -/
def genLoop (taken : List String) (base : String) : List Nat → Option String
  | [] => none
  | n :: rest =>
    let cand := base ++ "-" ++ uuidHex8 n
    if taken.contains cand then genLoop taken base rest else some cand

/-- `DatabaseManager.generate_unique_slug`: the first iteration
(`counter == 1`) probes the bare `base_slug` against `User.slug`; later
iterations probe `f"{base_slug}-{uuid.uuid4().hex[:8]}"`. -/
def generate_unique_slug (db : DB) (base : String) (seeds : List Nat) : Option String :=
  let taken := db.users.map (fun u => u.slug)
  if taken.contains base then genLoop taken base seeds else some base

/-- `DatabaseManager.generate_unique_username`: identical loop probing
`User.username`. -/
def generate_unique_username (db : DB) (base : String) (seeds : List Nat) : Option String :=
  let taken := db.users.map (fun u => u.username)
  if taken.contains base then genLoop taken base seeds else some base

/-! ### Fault-injected handler variants

The collaborator contract (SQLAlchemy async session) buffers writes until
`commit()`; `rollback()` discards everything buffered since the last commit.
A `Session` keeps the committed store next to the pending one.  Each
`await db.execute(...)` / `await db.commit()` in a handler is an operation
that may raise an unexpected internal fault; `faultAt = some k` makes the
k-th operation raise, `none` injects no fault.  The `except Exception`
clause then runs `await db.rollback()` — dropping the pending writes — and
raises `HTTPException(500, "Internal Server Error")`. -/

/-- A per-request store session: the durably committed state and the pending
state holding uncommitted writes. -/
structure Session where
  committed : DB
  pending : DB
deriving Repr, DecidableEq

/-- `delete_user` with fault injection.  Operations in program order:
0 = the SELECT of the user, 1 = the DELETE of the user's tasks, 2 = the
DELETE of the user, 3 = the COMMIT.  On a fault (or on the caught 404) the
handler rolls back and the committed state is returned unchanged. -/
def delete_user_faulty (db : DB) (uid : Nat) (faultAt : Option Nat) :
    Response Confirmation × DB :=
  let s : Session := ⟨db, db⟩
  if faultAt == some 0 then (.err 500 "Internal Server Error", s.committed)
  else
    match db.findUser uid with
    | none => (.err 500 "Internal Server Error", s.committed)
    | some _ =>
      if faultAt == some 1 then (.err 500 "Internal Server Error", s.committed)
      else
        let p1 : DB := { s.pending with tasks := s.pending.tasks.filter (fun t => ¬ t.user_id == uid) }
        let s1 : Session := { s with pending := p1 }
        if faultAt == some 2 then (.err 500 "Internal Server Error", s1.committed)
        else
          let p2 : DB := { s1.pending with users := s1.pending.users.filter (fun u => ¬ u.id == uid) }
          let s2 : Session := { s1 with pending := p2 }
          if faultAt == some 3 then (.err 500 "Internal Server Error", s2.committed)
          else
            let s3 : Session := { s2 with committed := s2.pending }
            (.ok 200 ⟨200, "User and associated tasks delete is successful"⟩, s3.committed)

/-- `update_user` with fault injection.  Operations in program order:
0 = the SELECT of the user, 1 = the UPDATE, 2 = the COMMIT. -/
def update_user_faulty (db : DB) (uid : Nat) (um : UpdateUser) (faultAt : Option Nat) :
    Response Confirmation × DB :=
  let s : Session := ⟨db, db⟩
  if faultAt == some 0 then (.err 500 "Internal Server Error", s.committed)
  else
    match db.findUser uid with
    | none => (.err 500 "Internal Server Error", s.committed)
    | some _ =>
      if faultAt == some 1 then (.err 500 "Internal Server Error", s.committed)
      else
        let p1 : DB := { s.pending with users := s.pending.users.map (fun u => if u.id == uid then applyUserUpdate um u else u) }
        let s1 : Session := { s with pending := p1 }
        if faultAt == some 2 then (.err 500 "Internal Server Error", s1.committed)
        else
          let s2 : Session := { s1 with committed := s1.pending }
          (.ok 200 ⟨200, "User update is successful"⟩, s2.committed)

/-- `create_task` with fault injection.  Operations in program order:
0 = the SELECT of the owning user, 1 = the INSERT, 2 = the COMMIT.  The 404
for a missing user escapes through the dedicated `except HTTPException`
clause (no write has been buffered at that point). -/
def create_task_faulty (db : DB) (ct : CreateTask) (faultAt : Option Nat) :
    Response Confirmation × DB :=
  let s : Session := ⟨db, db⟩
  if faultAt == some 0 then (.err 500 "Internal Server Error", s.committed)
  else
    match db.findUser ct.user_id with
    | none => (.err 404 "User was not found", s.committed)
    | some _ =>
      if faultAt == some 1 then (.err 500 "Internal Server Error", s.committed)
      else
        let p1 : DB := { s.pending with tasks := s.pending.tasks ++ [insertedTask s.pending ct], nextTaskId := s.pending.nextTaskId + 1 }
        let s1 : Session := { s with pending := p1 }
        if faultAt == some 2 then (.err 500 "Internal Server Error", s1.committed)
        else
          let s2 : Session := { s1 with committed := s1.pending }
          (.ok 200 ⟨201, "Successful"⟩, s2.committed)

/-! ### Concrete fixtures used by witnesses and counterexamples -/

/-- A stored user, id 1. -/
def aliceUser : User := ⟨1, "alice", "Alice", "Doe", 30, "alice"⟩

/-- A second stored user, id 2. -/
def bobUser : User := ⟨2, "bob", "Bob", "Ray", 40, "bob"⟩

/-- A task of user 1. -/
def t1Task : Task := ⟨1, "T1", "C1", 1, 1⟩

/-- A second task of user 1. -/
def t2Task : Task := ⟨2, "T2", "C2", 2, 1⟩

/-- A task of user 2. -/
def t3Task : Task := ⟨3, "T3", "C3", 3, 2⟩

/-- Store holding one user and one of their tasks. -/
def db1 : DB := ⟨[aliceUser], [t1Task], 2, 2⟩

/-- Store holding two users; user 1 owns tasks 1 and 2, user 2 owns task 3. -/
def db2 : DB := ⟨[aliceUser, bobUser], [t1Task, t2Task, t3Task], 3, 4⟩

/-! ### Claim theorems -/

/-- C1.  The claim says a get-user-by-id or get-task-by-id request for a
missing id returns a Not-Found (404) failure and never any other failure
kind.  On the code this fails: the `try` body does raise
`HTTPException(404, ...)`, but the handler's generic `except Exception`
clause catches it (FastAPI's `HTTPException` subclasses `Exception`) and
re-raises `HTTPException(500, "Internal Server Error")`, so the caller
observes a 500, not a 404.  Evaluated here at the failing input: an empty
store and id 1. -/
theorem user_task_by_id_missing_gives_500 :
    user_by_id emptyDB 1 = .err 500 "Internal Server Error" ∧
    task_by_id emptyDB 1 = .err 500 "Internal Server Error" ∧
    user_by_id_try emptyDB 1 = .error (.httpExc 404 "User not found") ∧
    task_by_id_try emptyDB 1 = .error (.httpExc 404 "Task not found") :=
  ⟨rfl, rfl, rfl, rfl⟩

/-- C2.  The claim says listing users (tasks) over an empty store returns a
Not-Found (404) response.  On the code this fails the same way as C1: the
`HTTPException(404, 'There are no users'/'There are no tasks')` raised
inside the `try` block is caught by the generic `except Exception` clause
and converted to `HTTPException(500, "Internal Server Error")`.  Evaluated
at the failing input: the empty store. -/
theorem list_empty_gives_500 :
    all_users emptyDB = .err 500 "Internal Server Error" ∧
    all_tasks emptyDB = .err 500 "Internal Server Error" ∧
    all_users_try emptyDB = .error (.httpExc 404 "There are no users") ∧
    all_tasks_try emptyDB = .error (.httpExc 404 "There are no tasks") :=
  ⟨rfl, rfl, rfl, rfl⟩

/-- C3.  Creating a task whose `user_id` references no existing user fails
with the 404 `'User was not found'` response (this handler's dedicated
`except HTTPException: raise` clause lets the 404 escape) and returns the
store unchanged — no task record is left behind. -/
theorem create_task_missing_user_404 (db : DB) (ct : CreateTask)
    (h : ∀ u ∈ db.users, u.id ≠ ct.user_id) :
    create_task db ct = (.err 404 "User was not found", db) := by
  have hf : db.findUser ct.user_id = none := by
    simp only [DB.findUser, List.find?_eq_none, beq_iff_eq]
    exact h
  simp [create_task, create_task_try, hf]

/-- Witness for C3: in a store holding only user 1, creating a task with
`user_id = 5` fails with 404 and leaves the store unchanged. -/
theorem create_task_missing_user_404_witness :
    (∀ u ∈ db1.users, u.id ≠ 5) ∧
    create_task db1 ⟨"T", "C", 1, 5⟩ = (.err 404 "User was not found", db1) :=
  ⟨by decide, create_task_missing_user_404 db1 ⟨"T", "C", 1, 5⟩ (by decide)⟩

/-- C10.  The `CreateUser` request schema requires a `slug` field, but the
`create_user` handler never reads it: the persisted slug is
`slugify(firstname)`, so two create requests that differ only in the
supplied slug produce identical responses and identical stored records. -/
theorem create_user_ignores_slug_field (db : DB) (a b : CreateUser)
    (h1 : a.username = b.username) (h2 : a.firstname = b.firstname)
    (h3 : a.lastname = b.lastname) (h4 : a.age = b.age) :
    create_user db a = create_user db b := by
  simp [create_user, insertedUser, h1, h2, h3, h4]

/-- Witness for C10: two concrete create requests differing only in the
supplied slug ("slug-a" vs "slug-b") yield equal results. -/
theorem create_user_ignores_slug_field_witness :
    create_user emptyDB ⟨"alice", "Alice", "Doe", 30, "slug-a"⟩ =
      create_user emptyDB ⟨"alice", "Alice", "Doe", 30, "slug-b"⟩ :=
  create_user_ignores_slug_field emptyDB _ _ rfl rfl rfl rfl

/-- C4.  The cascade itself is implemented as claimed — deleting a user
removes every task whose `user_id` equals the user's id before removing the
user — but the final clause fails on the code: a subsequent task-by-id
lookup for a removed task does not return Not-Found.  As in C1, the
`HTTPException(404, 'Task not found')` raised by `task_by_id` is swallowed
by its `except Exception` clause and surfaces as a 500.  Evaluated at the
failing input: deleting user 1 (who owns tasks 1 and 2) from a store also
holding user 2 with task 3, then looking tasks 1 and 2 up. -/
theorem delete_user_cascades_but_lookup_500 :
    delete_user db2 1 =
      (.ok 200 ⟨200, "User and associated tasks delete is successful"⟩,
        ⟨[bobUser], [t3Task], 3, 4⟩) ∧
    (delete_user db2 1).2.tasks.filter (fun t => t.user_id == 1) = [] ∧
    task_by_id (delete_user db2 1).2 1 = .err 500 "Internal Server Error" ∧
    task_by_id (delete_user db2 1).2 2 = .err 500 "Internal Server Error" ∧
    task_by_id_try (delete_user db2 1).2 1 = .error (.httpExc 404 "Task not found") ∧
    task_by_id_try (delete_user db2 1).2 2 = .error (.httpExc 404 "Task not found") :=
  ⟨rfl, rfl, rfl, rfl, rfl, rfl⟩

/-- The user table an `update_user` call leaves behind: the UPDATE is applied
when the preceding SELECT found the user, otherwise the table is unchanged. -/
theorem update_user_users_eq (db : DB) (uid : Nat) (um : UpdateUser) :
    (update_user db uid um).2.users =
      if (db.findUser uid).isSome then
        db.users.map (fun u => if u.id == uid then applyUserUpdate um u else u)
      else db.users := by
  unfold update_user update_user_try
  cases db.findUser uid <;> simp

/-- C5.  Creating a user stores exactly the inserted row whose slug is
`slugify(firstname)`, and after an update every user row carrying the
updated id has slug `slugify` of the new firstname: the slug is recomputed
deterministically from the supplied firstname at creation/update time. -/
theorem stored_slug_is_slugified_firstname (db : DB) (cu : CreateUser)
    (uid : Nat) (um : UpdateUser) :
    (create_user db cu).2.users = db.users ++ [insertedUser db cu] ∧
    (insertedUser db cu).slug = slugify cu.firstname ∧
    ∀ u ∈ (update_user db uid um).2.users, u.id = uid →
      u.slug = slugify um.firstname := by
  refine ⟨rfl, rfl, ?_⟩
  intro u hu hid
  rw [update_user_users_eq] at hu
  by_cases hfind : (db.findUser uid).isSome
  · rw [if_pos hfind] at hu
    obtain ⟨v, hv, hvu⟩ := List.mem_map.mp hu
    by_cases hc : v.id = uid
    · rw [if_pos (by simpa using hc)] at hvu
      rw [← hvu]
      rfl
    · rw [if_neg (by simpa using hc)] at hvu
      exact absurd (hvu ▸ hid) hc
  · rw [if_neg hfind] at hu
    have hnone : db.users.find? (fun u => u.id == uid) = none := by
      have := Option.not_isSome_iff_eq_none.mp hfind
      simpa [DB.findUser] using this
    have := List.find?_eq_none.mp hnone u hu
    simp [hid] at this

/-- Witness for C5: updating user 1 of the one-user store with firstname
"John Smith" stores the slug "john-smith" on the user row with id 1. -/
theorem stored_slug_is_slugified_firstname_witness :
    applyUserUpdate ⟨"John Smith", "Doe", 31⟩ aliceUser ∈
      (update_user db1 1 ⟨"John Smith", "Doe", 31⟩).2.users ∧
    (applyUserUpdate ⟨"John Smith", "Doe", 31⟩ aliceUser).id = 1 ∧
    (applyUserUpdate ⟨"John Smith", "Doe", 31⟩ aliceUser).slug = "john-smith" := by
  refine ⟨by decide, by decide, ?_⟩
  have h := (stored_slug_is_slugified_firstname db1 ⟨"x", "x", "x", 0, "x"⟩ 1
    ⟨"John Smith", "Doe", 31⟩).2.2
    (applyUserUpdate ⟨"John Smith", "Doe", 31⟩ aliceUser) (by decide) (by decide)
  rw [h]
  decide

/-- C7.  Updating an existing task (the SELECT finds row `t0`) succeeds, and
re-fetching the task by its id yields exactly the new title, content and
priority while id and user_id still equal those of `t0`. -/
theorem update_task_roundtrip (db : DB) (tid : Nat) (ut : UpdateTask)
    (t0 : Task) (h : db.findTask tid = some t0) :
    (update_task db tid ut).1 = .ok 200 ⟨200, "Task update is successful"⟩ ∧
    task_by_id (update_task db tid ut).2 tid =
      .ok 200 ⟨t0.id, ut.title, ut.content, ut.priority, t0.user_id⟩ := by
  unfold update_task update_task_try
  rw [show db.findTask tid = some t0 from h]
  refine ⟨rfl, ?_⟩
  unfold task_by_id task_by_id_try DB.findTask
  have hid : ∀ t : Task,
      ((if t.id == tid then applyTaskUpdate ut t else t).id == tid) = (t.id == tid) := by
    intro t
    by_cases hc : t.id = tid <;> simp [hc, applyTaskUpdate]
  rw [List.find?_map]
  have hcomp : ((fun t : Task => t.id == tid) ∘
      (fun t => if t.id == tid then applyTaskUpdate ut t else t)) =
      (fun t : Task => t.id == tid) := by
    funext t
    exact hid t
  rw [hcomp]
  have hfind : db.tasks.find? (fun t => t.id == tid) = some t0 := h
  rw [hfind]
  have ht0 := List.find?_some hfind
  have ht0' : (t0.id == tid) = true := by simpa using ht0
  simp only [Option.map, ht0', if_true]
  rfl

/-- Witness for C7: updating task 1 of the one-task store with new title,
content and priority, then re-fetching, yields exactly the new values with
id 1 and user_id 1 unchanged. -/
theorem update_task_roundtrip_witness :
    db1.findTask 1 = some t1Task ∧
    (update_task db1 1 ⟨"New", "NewC", 9⟩).1 =
      .ok 200 ⟨200, "Task update is successful"⟩ ∧
    task_by_id (update_task db1 1 ⟨"New", "NewC", 9⟩).2 1 =
      .ok 200 ⟨1, "New", "NewC", 9, 1⟩ := by
  have h := update_task_roundtrip db1 1 ⟨"New", "NewC", 9⟩ t1Task (by decide)
  exact ⟨by decide, h.1, h.2⟩

/-- Lowercase hexadecimal alphabet, the image of `uuid4().hex`. -/
def isHexLower (c : Char) : Bool :=
  c.isDigit || ('a' ≤ c && c ≤ 'f')

/-- Every digit rendered by `hexDigitChar` is a lowercase hex character. -/
theorem hexDigitChar_isHexLower : ∀ k, k < 16 → isHexLower (hexDigitChar k) = true := by
  decide

/-- `uuidHex8` always renders exactly eight characters. -/
theorem uuidHex8_length (n : Nat) : (uuidHex8 n).length = 8 := by
  simp [uuidHex8, String.length]

/-- Every character of `uuidHex8` is a lowercase hex character. -/
theorem uuidHex8_chars (n : Nat) : ∀ c ∈ (uuidHex8 n).data, isHexLower c = true := by
  intro c hc
  simp only [uuidHex8, List.mem_map, List.mem_range] at hc
  obtain ⟨i, _, rfl⟩ := hc
  exact hexDigitChar_isHexLower _ (Nat.mod_lt _ (by norm_num))

/-- Whatever the retry loop returns is not among the taken values: the
membership probe guards every return. -/
theorem genLoop_not_taken (taken : List String) (base : String) :
    ∀ seeds v, genLoop taken base seeds = some v → ¬ v ∈ taken := by
  intro seeds
  induction seeds with
  | nil =>
    intro v h
    simp [genLoop] at h
  | cons n rest ih =>
    intro v h
    unfold genLoop at h
    by_cases hc : taken.contains (base ++ "-" ++ uuidHex8 n)
    · rw [if_pos hc] at h
      exact ih v h
    · rw [if_neg hc] at h
      cases h
      intro hmem
      exact hc (List.elem_iff.mpr hmem)

/-- Whatever the retry loop returns is the base value joined to one of the
drawn random suffixes by a hyphen. -/
theorem genLoop_shape (taken : List String) (base : String) :
    ∀ seeds v, genLoop taken base seeds = some v →
      ∃ n ∈ seeds, v = base ++ "-" ++ uuidHex8 n := by
  intro seeds
  induction seeds with
  | nil =>
    intro v h
    simp [genLoop] at h
  | cons n rest ih =>
    intro v h
    unfold genLoop at h
    by_cases hc : taken.contains (base ++ "-" ++ uuidHex8 n)
    · rw [if_pos hc] at h
      obtain ⟨m, hm, hv⟩ := ih v h
      exact ⟨m, List.mem_cons_of_mem _ hm, hv⟩
    · rw [if_neg hc] at h
      cases h
      exact ⟨n, List.mem_cons_self _ _, rfl⟩

/-- C6.  The unique-value generation of `backend/db.py`, for slugs and for
usernames: every returned value is absent from the store; a free base value
is returned unchanged; a taken base value yields the base joined by a
hyphen to one of the randomly drawn suffixes, which consists of exactly
eight lowercase hexadecimal characters. -/
theorem generate_unique_value_spec (db : DB) (base : String) (seeds : List Nat)
    (v : String) :
    (generate_unique_slug db base seeds = some v →
      ¬ v ∈ db.users.map (fun u => u.slug)) ∧
    (¬ base ∈ db.users.map (fun u => u.slug) →
      generate_unique_slug db base seeds = some base) ∧
    (base ∈ db.users.map (fun u => u.slug) →
      generate_unique_slug db base seeds = some v →
      ∃ n ∈ seeds, v = base ++ "-" ++ uuidHex8 n ∧ (uuidHex8 n).length = 8 ∧
        ∀ c ∈ (uuidHex8 n).data, isHexLower c = true) ∧
    (generate_unique_username db base seeds = some v →
      ¬ v ∈ db.users.map (fun u => u.username)) ∧
    (¬ base ∈ db.users.map (fun u => u.username) →
      generate_unique_username db base seeds = some base) ∧
    (base ∈ db.users.map (fun u => u.username) →
      generate_unique_username db base seeds = some v →
      ∃ n ∈ seeds, v = base ++ "-" ++ uuidHex8 n ∧ (uuidHex8 n).length = 8 ∧
        ∀ c ∈ (uuidHex8 n).data, isHexLower c = true) := by
  have main : ∀ taken : List String,
      ((if taken.contains base then genLoop taken base seeds else some base) = some v →
        ¬ v ∈ taken) ∧
      (¬ base ∈ taken →
        (if taken.contains base then genLoop taken base seeds else some base) = some base) ∧
      (base ∈ taken →
        (if taken.contains base then genLoop taken base seeds else some base) = some v →
        ∃ n ∈ seeds, v = base ++ "-" ++ uuidHex8 n ∧ (uuidHex8 n).length = 8 ∧
          ∀ c ∈ (uuidHex8 n).data, isHexLower c = true) := by
    intro taken
    refine ⟨?_, ?_, ?_⟩
    · intro h
      by_cases hc : taken.contains base
      · rw [if_pos hc] at h
        exact genLoop_not_taken taken base seeds v h
      · rw [if_neg hc] at h
        cases h
        intro hmem
        exact hc (List.elem_iff.mpr hmem)
    · intro hmem
      rw [if_neg (fun hc => hmem (List.elem_iff.mp hc))]
    · intro hmem h
      rw [if_pos (List.elem_iff.mpr hmem)] at h
      obtain ⟨n, hn, hv⟩ := genLoop_shape taken base seeds v h
      exact ⟨n, hn, hv, uuidHex8_length n, uuidHex8_chars n⟩
  exact ⟨(main _).1, (main _).2.1, (main _).2.2,
    (main _).1, (main _).2.1, (main _).2.2⟩

/-- Witness for C6: in the one-user store (slug and username both "alice"),
the free base "bob" comes back unchanged; the taken base "alice" with one
random draw (seed 7) comes back as "alice-70000000", which is not a stored
slug. -/
theorem generate_unique_value_spec_witness :
    ¬ "bob" ∈ db1.users.map (fun u => u.slug) ∧
    generate_unique_slug db1 "bob" [] = some "bob" ∧
    "alice" ∈ db1.users.map (fun u => u.slug) ∧
    generate_unique_slug db1 "alice" [7] = some "alice-70000000" ∧
    ¬ "alice-70000000" ∈ db1.users.map (fun u => u.slug) := by
  have h1 := (generate_unique_value_spec db1 "bob" [] "bob").2.1 (by decide)
  have heq : generate_unique_slug db1 "alice" [7] = some "alice-70000000" := by decide
  have h2 := (generate_unique_value_spec db1 "alice" [7] "alice-70000000").1 heq
  exact ⟨by decide, h1, by decide, heq, h2⟩

/-- C8, counterexample.  The claim says a successful create responds with
HTTP status code 201.  It does not: neither `POST /user/create` nor
`POST /task/create` declares a `status_code` on its route decorator, so the
successful response goes out with the framework default 200 — the 201 is
only a field inside the response body.  Evaluated at concrete successful
creates. -/
theorem create_http_status_200_not_201 :
    Response.httpStatusOf (create_user emptyDB ⟨"alice", "Alice", "Doe", 30, "alice"⟩).1 = 200 ∧
    ¬ Response.httpStatusOf (create_user emptyDB ⟨"alice", "Alice", "Doe", 30, "alice"⟩).1 = 201 ∧
    (create_user emptyDB ⟨"alice", "Alice", "Doe", 30, "alice"⟩).1 =
      .ok 200 ⟨201, "Successful"⟩ ∧
    Response.httpStatusOf (create_task db1 ⟨"T", "C", 1, 1⟩).1 = 200 ∧
    ¬ Response.httpStatusOf (create_task db1 ⟨"T", "C", 1, 1⟩).1 = 201 :=
  ⟨rfl, by decide, rfl, by decide, by decide⟩

/-- C8, amended.  Every successful operation responds with HTTP status 200
(no route declares a status code, so the framework default applies);
successful creates carry a body whose `status_code` field is 201, and
successful updates and deletes carry a body whose `status_code` field is
200; successful reads return the records with HTTP 200. -/
theorem success_http_status_codes (db : DB) (cu : CreateUser) (ct : CreateTask)
    (uid tid : Nat) (um : UpdateUser) (ut : UpdateTask) (u : User) (t : Task)
    (w : User) (hu : db.findUser uid = some u) (hw : db.findUser ct.user_id = some w)
    (ht : db.findTask tid = some t) :
    (create_user db cu).1 = .ok 200 ⟨201, "Successful"⟩ ∧
    (create_task db ct).1 = .ok 200 ⟨201, "Successful"⟩ ∧
    user_by_id db uid = .ok 200 u ∧
    task_by_id db tid = .ok 200 t ∧
    (update_user db uid um).1 = .ok 200 ⟨200, "User update is successful"⟩ ∧
    (update_task db tid ut).1 = .ok 200 ⟨200, "Task update is successful"⟩ ∧
    (delete_user db uid).1 =
      .ok 200 ⟨200, "User and associated tasks delete is successful"⟩ ∧
    (delete_task db tid).1 = .ok 200 ⟨200, "Task delete is successful"⟩ := by
  refine ⟨rfl, ?_, ?_, ?_, ?_, ?_, ?_, ?_⟩
  · simp [create_task, create_task_try, hw]
  · simp [user_by_id, user_by_id_try, hu]
  · simp [task_by_id, task_by_id_try, ht]
  · simp [update_user, update_user_try, hu]
  · simp [update_task, update_task_try, ht]
  · simp [delete_user, delete_user_try, hu]
  · simp [delete_task, delete_task_try, ht]

/-- Witness for C8's amended statement: the concrete one-user one-task store,
operating on user 1 and task 1. -/
theorem success_http_status_codes_witness :
    db1.findUser 1 = some aliceUser ∧ db1.findTask 1 = some t1Task ∧
    (create_user db1 ⟨"bob", "Bob", "Ray", 40, "bob"⟩).1 =
      .ok 200 ⟨201, "Successful"⟩ ∧
    user_by_id db1 1 = .ok 200 aliceUser ∧
    (delete_task db1 1).1 = .ok 200 ⟨200, "Task delete is successful"⟩ := by
  have h := success_http_status_codes db1 ⟨"bob", "Bob", "Ray", 40, "bob"⟩
    ⟨"T", "C", 1, 1⟩ 1 1 ⟨"A", "B", 1⟩ ⟨"T2", "C2", 2⟩ aliceUser t1Task aliceUser
    (by decide) (by decide) (by decide)
  exact ⟨by decide, by decide, h.1, h.2.2.1, h.2.2.2.2.2.2.2⟩

/-- C9.  An unexpected internal fault at any store operation before the
commit (`some k` indexes the faulting operation in program order) makes the
handler roll back and surface the generic 500 response, with the committed
store exactly as it was before the request — in particular a delete-user
that faults mid-way (after deleting the tasks, before or at the commit)
leaves both the user and all of the user's tasks in place.  Without a fault
(`none`) each fault-instrumented handler agrees with its plain embedding. -/
theorem fault_rolls_back (db : DB) (uid : Nat) (um : UpdateUser)
    (ct : CreateTask) (w : User) (k : Nat) :
    (k ≤ 3 → delete_user_faulty db uid (some k) =
      (.err 500 "Internal Server Error", db)) ∧
    (k ≤ 2 → update_user_faulty db uid um (some k) =
      (.err 500 "Internal Server Error", db)) ∧
    (k ≤ 2 → db.findUser ct.user_id = some w →
      create_task_faulty db ct (some k) =
        (.err 500 "Internal Server Error", db)) ∧
    delete_user_faulty db uid none = delete_user db uid ∧
    update_user_faulty db uid um none = update_user db uid um ∧
    create_task_faulty db ct none = create_task db ct := by
  refine ⟨?_, ?_, ?_, ?_, ?_, ?_⟩
  · intro hk
    interval_cases k <;> cases hf : db.findUser uid <;>
      simp [delete_user_faulty, hf]
  · intro hk
    interval_cases k <;> cases hf : db.findUser uid <;>
      simp [update_user_faulty, hf]
  · intro hk hw
    interval_cases k <;> simp [create_task_faulty, hw]
  · cases hf : db.findUser uid <;>
      simp [delete_user_faulty, delete_user, delete_user_try, hf]
  · cases hf : db.findUser uid <;>
      simp [update_user_faulty, update_user, update_user_try, hf]
  · cases hf : db.findUser ct.user_id <;>
      simp [create_task_faulty, create_task, create_task_try, hf]

/-- Witness for C9: in the one-user one-task store, a fault injected at the
commit of delete-user (operation 3), at the UPDATE of update-user
(operation 1) and at the INSERT of create-task (operation 1) each roll back
to the untouched store with the generic 500 response. -/
theorem fault_rolls_back_witness :
    delete_user_faulty db1 1 (some 3) = (.err 500 "Internal Server Error", db1) ∧
    update_user_faulty db1 1 ⟨"A", "B", 1⟩ (some 1) =
      (.err 500 "Internal Server Error", db1) ∧
    create_task_faulty db1 ⟨"T", "C", 1, 1⟩ (some 1) =
      (.err 500 "Internal Server Error", db1) := by
  refine ⟨?_, ?_, ?_⟩
  · exact (fault_rolls_back db1 1 ⟨"A", "B", 1⟩ ⟨"T", "C", 1, 1⟩ aliceUser 3).1
      (by norm_num)
  · exact (fault_rolls_back db1 1 ⟨"A", "B", 1⟩ ⟨"T", "C", 1, 1⟩ aliceUser 1).2.1
      (by norm_num)
  · exact (fault_rolls_back db1 1 ⟨"A", "B", 1⟩ ⟨"T", "C", 1, 1⟩ aliceUser 1).2.2.1
      (by norm_num) (by decide)

end TaskApp
